import Mathlib

/-!
# Verification of the whatsappvercel connection-lifecycle glue

Shallow embedding of the three deployment variants found in the repository:

* the MongoDB-backed Vercel serverless handler (`src/api/index.js`, first half);
* the Express server with file-based auth and reconnect/backoff
  (`src/api/index.js`, second half);
* the `/tmp`-ephemeral Vercel serverless handler with an idle-timeout policy
  (`src/unnamed/part_000`).

Strings of the JavaScript source are modelled as `String`; phone numbers are
modelled as `List Char` so that the digit-filtering normalization can be
reasoned about structurally.  Global mutable variables of each variant are
gathered into a state structure; every HTTP route handler and every
`connection.update` event handler becomes a pure function from state (and an
environment capturing the behaviour of the external protocol library and the
persistence backend during that request) to a new state plus a response.
-/

namespace WBot

/-- A JSON value as it appears in the handlers' response bodies. -/
inductive JVal where
  | jNull
  | jBool (b : Bool)
  | jStr (s : String)
  | jNat (n : Nat)
deriving DecidableEq

/-- The socket object returned by the external `makeWASocket`: only the
fields this repository reads (`sock.user.id`, `sock.user.name`) are kept. -/
structure Sock where
  userId : Option String
  userName : Option String
deriving DecidableEq

/-- A JSON response: HTTP status code plus body fields in order. -/
structure HttpResp where
  status : Nat
  body : List (String × JVal)
deriving DecidableEq

/-- `JSON.stringify`-level model of `s.startsWith(p)`: the first argument is
the string, the second the pattern. -/
def strStarts : List Char → List Char → Bool
  | _, [] => true
  | [], _ :: _ => false
  | c :: cs, p :: ps => (c == p) && strStarts cs ps

/-- `formatPhoneNumber` — identical in `src/api/index.js` (both variants) and
`src/unnamed/part_000`: strip non-digits (`replace(/\D/g, '')`), replace a
leading `0` by `62`, otherwise prepend `62` unless already present. -/
def formatPhoneNumber (phone : List Char) : List Char :=
  if strStarts (phone.filter (fun c => c.isDigit)) ['0'] then
    ['6', '2'] ++ (phone.filter (fun c => c.isDigit)).drop 1
  else if !(strStarts (phone.filter (fun c => c.isDigit)) ['6', '2']) then
    ['6', '2'] ++ phone.filter (fun c => c.isDigit)
  else
    phone.filter (fun c => c.isDigit)

/-- `sock?.user?.id ? sock.user.id.split(':')[0] : null`, shared by the
status routes of all three variants. -/
def botNumberOf (sock : Option Sock) : JVal :=
  match sock with
  | none => JVal.jNull
  | some s =>
    match s.userId with
    | none => JVal.jNull
    | some id => if id = "" then JVal.jNull else JVal.jStr (id.takeWhile (fun c => c != ':'))

/-- `sock?.user?.name || null` from the Express status route. -/
def botNameOf (sock : Option Sock) : JVal :=
  match sock with
  | none => JVal.jNull
  | some s =>
    match s.userName with
    | none => JVal.jNull
    | some n => if n = "" then JVal.jNull else JVal.jStr n

/- ## Helper lemmas on the phone normalizer -/

theorem filter_all_isDigit (l : List Char) :
    (l.filter (fun c => c.isDigit)).all (fun c => c.isDigit) = true := by
  rw [List.all_eq_true]
  intro a ha
  exact List.of_mem_filter ha

theorem all_drop_of_all {p : Char → Bool} {l : List Char} (n : Nat)
    (h : l.all p = true) : (l.drop n).all p = true := by
  simp only [List.all_eq_true] at h ⊢
  intro a ha
  exact h a (List.drop_subset n l ha)

theorem strStarts_cons2 {l : List Char} {a b : Char}
    (h : strStarts l [a, b] = true) : l = a :: b :: l.drop 2 := by
  match l with
  | [] => simp [strStarts] at h
  | [c] => simp [strStarts] at h
  | c :: d :: t =>
    simp only [strStarts, Bool.and_eq_true, beq_iff_eq] at h
    obtain ⟨h1, h2, -⟩ := h
    simp [h1, h2]

theorem strStarts_two_self (a b : Char) (t : List Char) :
    strStarts (a :: b :: t) [a, b] = true := by
  simp [strStarts]

theorem formatPhoneNumber_all_digits (s : List Char) :
    (formatPhoneNumber s).all (fun c => c.isDigit) = true := by
  have hall := filter_all_isDigit s
  unfold formatPhoneNumber
  split
  · simp only [List.all_append, Bool.and_eq_true]
    exact ⟨by decide, all_drop_of_all 1 hall⟩
  · split
    · simp only [List.all_append, Bool.and_eq_true]
      exact ⟨by decide, hall⟩
    · exact hall

theorem formatPhoneNumber_starts_62 (s : List Char) :
    strStarts (formatPhoneNumber s) ['6', '2'] = true := by
  unfold formatPhoneNumber
  split
  · exact strStarts_two_self '6' '2' _
  · split
    · exact strStarts_two_self '6' '2' _
    · next h62 => simpa using h62

theorem formatPhoneNumber_idem (s : List Char) :
    formatPhoneNumber (formatPhoneNumber s) = formatPhoneNumber s := by
  have hall := formatPhoneNumber_all_digits s
  have h62 := formatPhoneNumber_starts_62 s
  set r := formatPhoneNumber s with hr
  have hfilter : r.filter (fun c => c.isDigit) = r := by
    apply List.filter_eq_self.mpr
    intro a ha
    exact (List.all_eq_true.mp hall) a ha
  have hshape : r = '6' :: '2' :: r.drop 2 := strStarts_cons2 h62
  have h0 : strStarts r ['0'] = false := by
    rw [hshape]
    simp [strStarts]
  unfold formatPhoneNumber
  rw [hfilter, h0]
  simp [h62]

/- ## States of the three variants -/

/-- `DisconnectReason.loggedOut` of the external library (numeric value 401);
close events carry `lastDisconnect?.error?.output?.statusCode`, modelled as an
`Option Nat` (`none` when the chain is undefined). -/
def DisconnectReason.loggedOut : Nat := 401

/-- Globals of the MongoDB variant (`src/api/index.js`, first half):
`sock`, `qrCodeData`, `isConnected`, plus the `auth_state` collection of the
backing store as an association list from `key` to the stored blob. -/
structure MongoState where
  sock : Option Sock
  qrCodeData : Option String
  isConnected : Bool
  store : List (String × String)
deriving DecidableEq

/-- Globals of the Express variant (`src/api/index.js`, second half):
`sock`, `qrGenerated`, `currentQR`, `isConnected`, `connectionAttempts`,
plus the files of `auth_info_baileys`. -/
structure ExpressState where
  sock : Option Sock
  qrGenerated : Bool
  currentQR : Option String
  isConnected : Bool
  connectionAttempts : Nat
  authFiles : List String
deriving DecidableEq

/-- Globals of the `/tmp` variant (`src/unnamed/part_000`): `sock`, `qrCode`,
`isConnected`, `lastActivity` (milliseconds), plus the files of the
`/tmp/auth_info_baileys` folder. -/
structure TmpState where
  sock : Option Sock
  qrCode : Option String
  isConnected : Bool
  lastActivity : Nat
  authFiles : List String
deriving DecidableEq

def MAX_RETRY_ATTEMPTS : Nat := 3

def CONNECTION_TIMEOUT : Nat := 5 * 60 * 1000

/-- Module-load state of the MongoDB variant. -/
def mongoInit : MongoState :=
  { sock := none, qrCodeData := none, isConnected := false, store := [] }

/-- Module-load state of the Express variant (before `connectToWhatsApp`
runs and before any `connection.update` event). -/
def expressInit : ExpressState :=
  { sock := none, qrGenerated := false, currentQR := none, isConnected := false,
    connectionAttempts := 0, authFiles := [] }

/-- Module-load state of the `/tmp` variant; `startTime` is the value of
`Date.now()` when the module was loaded (`lastActivity = Date.now()`). -/
def tmpInit (startTime : Nat) : TmpState :=
  { sock := none, qrCode := none, isConnected := false, lastActivity := startTime,
    authFiles := [] }

/- ## The `connection.update` close handlers -/

/-- Result of processing a close event: the new state, how many times the
handler wiped the whole credential store, and the delays (ms) of the
reconnect calls it scheduled via `setTimeout`. -/
structure CloseResult (σ : Type) where
  st : σ
  wipes : Nat
  reconnectDelays : List Nat
deriving DecidableEq

/-- Close branch of `initWhatsApp`'s `connection.update` listener in the
MongoDB variant (`src/api/index.js` lines 110-119): set `isConnected = false`
and `sock = null`; schedule `initWhatsApp` after 5000 ms unless the status
code is `loggedOut`.  The backing store is not touched. -/
def mongoOnClose (st : MongoState) (statusCode : Option Nat) : CloseResult MongoState :=
  let st1 : MongoState := { st with isConnected := false, sock := none }
  if statusCode ≠ some DisconnectReason.loggedOut then
    { st := st1, wipes := 0, reconnectDelays := [5000] }
  else
    { st := st1, wipes := 0, reconnectDelays := [] }

/-- Close branch of `connectToWhatsApp`'s listener in the Express variant
(`src/api/index.js` lines 551-597): on `loggedOut`, clear the QR state and
delete every auth file; otherwise reconnect with backoff while
`connectionAttempts < MAX_RETRY_ATTEMPTS`, and past that bound reset the
counter, delete every auth file and schedule one fresh reconnect (5000 ms). -/
def expressOnClose (st : ExpressState) (statusCode : Option Nat) : CloseResult ExpressState :=
  let st1 : ExpressState := { st with isConnected := false }
  let st2 : ExpressState :=
    if statusCode = some DisconnectReason.loggedOut then
      { st1 with currentQR := none, qrGenerated := false, authFiles := [] }
    else st1
  let w1 : Nat := if statusCode = some DisconnectReason.loggedOut then 1 else 0
  if statusCode ≠ some DisconnectReason.loggedOut then
    if st2.connectionAttempts < MAX_RETRY_ATTEMPTS then
      { st := st2, wipes := w1,
        reconnectDelays := [min (5000 * st2.connectionAttempts) 15000] }
    else
      { st := { st2 with connectionAttempts := 0, authFiles := [] },
        wipes := w1 + 1, reconnectDelays := [5000] }
  else
    { st := st2, wipes := w1, reconnectDelays := [] }

/-- Entry of `connectToWhatsApp` in the Express variant (`src/api/index.js`
line 513): `connectionAttempts++`. -/
def expressConnectAttempt (st : ExpressState) : ExpressState :=
  { st with connectionAttempts := st.connectionAttempts + 1 }

/-- Close branch of `connectToWhatsApp`'s listener in the `/tmp` variant
(`src/unnamed/part_000` lines 72-89): set `isConnected = false`; on
`loggedOut` clear the QR and delete every auth file.  No reconnect is ever
scheduled (the promise is rejected instead). -/
def tmpOnClose (st : TmpState) (statusCode : Option Nat) : CloseResult TmpState :=
  let st1 : TmpState := { st with isConnected := false }
  if statusCode = some DisconnectReason.loggedOut then
    { st := { st1 with qrCode := none, authFiles := [] }, wipes := 1,
      reconnectDelays := [] }
  else
    { st := st1, wipes := 0, reconnectDelays := [] }

/-- Modelled from the spec: the pairing behaviour of the external protocol
client (`makeWASocket` of the external messaging library, which is not part
of this repository).  When a connection is initiated with no Credential
Records available, the protocol layer signals a pairing step and a fresh
pairing artifact is generated; with credentials present the session resumes. -/
def ensureConnectedOutcome (credFiles : List String) (freshQR : String) : Option String :=
  if credFiles.isEmpty then some freshQR else none

/- ## Status route bodies -/

/-- Body of `GET /status` in the MongoDB variant (`src/api/index.js` lines
197-205).  Note: it has a `status` string field but no `connected` field. -/
def mongoStatusBody (st : MongoState) (ts : String) : List (String × JVal) :=
  [("status", JVal.jStr (if st.isConnected then "connected" else "disconnected")),
   ("qrRequired", JVal.jBool (!st.isConnected && st.qrCodeData.isNone)),
   ("qrAvailable", JVal.jBool st.qrCodeData.isSome),
   ("botNumber", botNumberOf st.sock),
   ("timestamp", JVal.jStr ts)]

/-- Body of `GET /api/status` in the `/tmp` variant (`src/unnamed/part_000`
lines 326-334). -/
def tmpStatusBody (st : TmpState) (ts : String) : List (String × JVal) :=
  [("connected", JVal.jBool st.isConnected),
   ("qrAvailable", JVal.jBool st.qrCode.isSome),
   ("botNumber", botNumberOf st.sock),
   ("lastActivity", JVal.jNat st.lastActivity),
   ("timestamp", JVal.jStr ts)]

/-- Body of `GET /status` in the Express variant (`src/api/index.js` lines
1031-1044). -/
def expressStatusBody (st : ExpressState) (uptime : Nat) (ts : String) :
    List (String × JVal) :=
  [("connected", JVal.jBool st.isConnected),
   ("status", JVal.jStr (if st.isConnected then "connected" else "disconnected")),
   ("qrRequired", JVal.jBool st.qrGenerated),
   ("qrAvailable", JVal.jBool st.currentQR.isSome),
   ("botNumber", botNumberOf st.sock),
   ("botName", botNameOf st.sock),
   ("uptime", JVal.jNat uptime),
   ("connectionAttempts", JVal.jNat st.connectionAttempts),
   ("maxAttempts", JVal.jNat MAX_RETRY_ATTEMPTS),
   ("timestamp", JVal.jStr ts)]

/- ## The `/tmp` variant: keepAlive, connectToWhatsApp, request handler -/

/-- `keepAlive` (`src/unnamed/part_000` lines 110-120): if a connected
socket has been inactive for more than `CONNECTION_TIMEOUT` ms, end it and
clear `sock` / `isConnected`. -/
def keepAlive (now : Nat) (st : TmpState) : TmpState :=
  if st.sock ≠ none ∧ st.isConnected = true then
    if now - st.lastActivity > CONNECTION_TIMEOUT then
      { st with sock := none, isConnected := false }
    else st
  else st

/-- The single terminal `connection.update` event observed by one call of
`connectToWhatsApp` in the `/tmp` variant (the promise resolves on a `qr`
or `open` event, and rejects on `close` or on the 45 s timeout). -/
inductive ConnectOutcome where
  | qrShown (q : String)
  | opened (u : Sock)
  | closedConn (statusCode : Option Nat)
  | timedOut
deriving DecidableEq

/-- `connectToWhatsApp` in the `/tmp` variant (`src/unnamed/part_000` lines
34-107): when already connected only `lastActivity` is refreshed; otherwise a
socket is created and the returned flag says whether the promise resolved
(`true`) or rejected (`false`), under the given terminal event. -/
def connectToWhatsApp (now : Nat) (st : TmpState) (o : ConnectOutcome) :
    TmpState × Bool :=
  if st.sock ≠ none ∧ st.isConnected = true then
    ({ st with lastActivity := now }, true)
  else
    let stS : TmpState := { st with sock := some { userId := none, userName := none } }
    match o with
    | ConnectOutcome.qrShown q => ({ stS with qrCode := some q }, true)
    | ConnectOutcome.opened u =>
        ({ stS with sock := some u, isConnected := true, qrCode := none, lastActivity := now }, true)
    | ConnectOutcome.closedConn sc => ((tmpOnClose stS sc).st, false)
    | ConnectOutcome.timedOut => (stS, false)

/-- A request routed by the `/tmp` variant's serverless handler. -/
inductive TmpReq where
  | status
  | qr
  | connect
  | send (phone msg : List Char)
  | clear
deriving DecidableEq

/-- Behaviour of the external collaborators during one `/tmp` request:
the terminal connection event if a connect is initiated, the result of
`sock.onWhatsApp`, the id returned by `sock.sendMessage`, whether the
credential-file deletion in `/api/clear` throws, and the dynamic strings. -/
structure TmpEnv where
  connectOut : ConnectOutcome
  recipientExists : Bool
  messageId : String
  deleteFails : Bool
  timestamp : String
  errMsg : String
deriving DecidableEq

/-- Result of one request: response, new state, number of `sendMessage`
calls made against the protocol layer, number of connection initiations. -/
structure HandlerResult (σ : Type) where
  resp : HttpResp
  st : σ
  sends : Nat
  connects : Nat
deriving DecidableEq

/-- Abbreviation for `res.status(n).json(body)`. -/
def jresp (status : Nat) (body : List (String × JVal)) : HttpResp :=
  { status := status, body := body }

/-- The `/tmp` variant's serverless handler (`src/unnamed/part_000` lines
123-468): `keepAlive()` runs before routing; then the request is routed to
`/api/status`, `/api/qr`, `/api/connect`, `/api/send` or `/api/clear`. -/
def tmpHandler (now : Nat) (st0 : TmpState) (req : TmpReq) (env : TmpEnv) :
    HandlerResult TmpState :=
  let st := keepAlive now st0
  match req with
  | TmpReq.status =>
      { resp := jresp 200 (tmpStatusBody st env.timestamp),
        st := st, sends := 0, connects := 0 }
  | TmpReq.connect =>
      let r := connectToWhatsApp now st env.connectOut
      let c : Nat := if st.sock ≠ none ∧ st.isConnected = true then 0 else 1
      if r.2 then
        { resp := jresp 200 [("success", JVal.jBool true)],
          st := r.1, sends := 0, connects := c }
      else
        { resp := jresp 500 [("success", JVal.jBool false), ("error", JVal.jStr env.errMsg)],
          st := r.1, sends := 0, connects := c }
  | TmpReq.qr =>
      if st.isConnected then
        { resp := jresp 200 [("success", JVal.jBool false),
                             ("message", JVal.jStr "Already connected")],
          st := st, sends := 0, connects := 0 }
      else
        let rc : TmpState × Nat :=
          if st.qrCode = none then ((connectToWhatsApp now st env.connectOut).1, 1)
          else (st, 0)
        match rc.1.qrCode with
        | some q =>
            { resp := jresp 200 [("success", JVal.jBool true), ("qr", JVal.jStr q),
                                 ("message", JVal.jStr "Scan this QR code with WhatsApp")],
              st := rc.1, sends := 0, connects := rc.2 }
        | none =>
            { resp := jresp 503 [("success", JVal.jBool false),
                                 ("message", JVal.jStr "QR code not available yet. Try /api/connect first")],
              st := rc.1, sends := 0, connects := rc.2 }
  | TmpReq.send p m =>
      if p = [] ∨ m = [] then
        { resp := jresp 400 [("success", JVal.jBool false),
                             ("error", JVal.jStr "Phone and message are required")],
          st := st, sends := 0, connects := 0 }
      else if st.isConnected = false ∨ st.sock = none then
        { resp := jresp 503 [("success", JVal.jBool false),
                             ("error", JVal.jStr "Bot not connected. Get QR code at /api/qr")],
          st := st, sends := 0, connects := 0 }
      else if env.recipientExists then
        { resp := jresp 200 [("success", JVal.jBool true),
                             ("message", JVal.jStr "Message sent successfully"),
                             ("to", JVal.jStr (String.mk (formatPhoneNumber p))),
                             ("messageId", JVal.jStr env.messageId)],
          st := { st with lastActivity := now }, sends := 1, connects := 0 }
      else
        { resp := jresp 404 [("success", JVal.jBool false),
                             ("error", JVal.jStr "Phone number not registered on WhatsApp")],
          st := st, sends := 0, connects := 0 }
  | TmpReq.clear =>
      let st1 : TmpState := { st with sock := none, isConnected := false, qrCode := none }
      if env.deleteFails then
        { resp := jresp 500 [("success", JVal.jBool false), ("error", JVal.jStr env.errMsg)],
          st := st1, sends := 0, connects := 0 }
      else
        { resp := jresp 200 [("success", JVal.jBool true),
                             ("message", JVal.jStr "Auth cleared successfully")],
          st := { st1 with authFiles := [] }, sends := 0, connects := 0 }

/- ## The MongoDB variant: initWhatsApp and the serverless handler -/

/-- A request routed by the MongoDB variant's serverless handler. -/
inductive MongoReq where
  | status
  | qr
  | health
  | send (phone msg : List Char)
deriving DecidableEq

/-- Behaviour of the external collaborators during one request of the
MongoDB variant.  `initWhatsApp` awaits the library and the database:
`initThrows` says whether that await throws (caught by the outer handler as
a 500), `opensDuringInit` whether the `connection.update` open event fires
before the await returns, and `qrDuringInit` whether a `qr` event does. -/
structure MongoEnv where
  initThrows : Bool
  opensDuringInit : Bool
  qrDuringInit : Option String
  initSock : Sock
  recipientExists : Bool
  messageId : String
  timestamp : String
  errMsg : String
deriving DecidableEq

/-- `initWhatsApp` (`src/api/index.js` lines 80-134) on its non-throwing
path: if a connected socket exists it is returned unchanged; otherwise a new
socket is created and the listener events that fired before the await
returned are applied (`qr` sets `qrCodeData`; `open` sets `isConnected` and
clears `qrCodeData`). -/
def initWhatsApp (st : MongoState) (env : MongoEnv) : MongoState :=
  if st.sock ≠ none ∧ st.isConnected = true then st
  else
    let st1 : MongoState := { st with sock := some env.initSock }
    let st2 : MongoState :=
      match env.qrDuringInit with
      | some q => { st1 with qrCodeData := some q }
      | none => st1
    if env.opensDuringInit then { st2 with isConnected := true, qrCodeData := none }
    else st2

/-- The MongoDB variant's serverless handler (`src/api/index.js` lines
148-279), routing `/status`, `/qr`, `/health` and `/send-message`; a throw
from `initWhatsApp` is caught by the surrounding try/catch as a 500. -/
def mongoHandler (st : MongoState) (req : MongoReq) (env : MongoEnv) :
    HandlerResult MongoState :=
  match req with
  | MongoReq.status =>
      { resp := jresp 200 (mongoStatusBody st env.timestamp),
        st := st, sends := 0, connects := 0 }
  | MongoReq.health =>
      { resp := jresp 200 [("status", JVal.jStr "ok"),
                           ("service", JVal.jStr "whatsapp-bot-vercel"),
                           ("connected", JVal.jBool st.isConnected),
                           ("timestamp", JVal.jStr env.timestamp)],
        st := st, sends := 0, connects := 0 }
  | MongoReq.qr =>
      if st.sock = none ∨ st.isConnected = false then
        if env.initThrows then
          { resp := jresp 500 [("success", JVal.jBool false), ("error", JVal.jStr env.errMsg)],
            st := st, sends := 0, connects := 1 }
        else
          let st1 := initWhatsApp st env
          mongoQrReply st1 1
      else
        mongoQrReply st 0
  | MongoReq.send p m =>
      if p = [] ∨ m = [] then
        { resp := jresp 400 [("success", JVal.jBool false),
                             ("error", JVal.jStr "Phone and message are required")],
          st := st, sends := 0, connects := 0 }
      else if st.isConnected = false ∨ st.sock = none then
        if env.initThrows then
          { resp := jresp 500 [("success", JVal.jBool false), ("error", JVal.jStr env.errMsg)],
            st := st, sends := 0, connects := 1 }
        else
          let st1 := initWhatsApp st env
          if st1.isConnected = false then
            { resp := jresp 503 [("success", JVal.jBool false),
                                 ("error", JVal.jStr "WhatsApp bot is not connected"),
                                 ("hint", JVal.jStr "Please scan QR code first")],
              st := st1, sends := 0, connects := 1 }
          else
            mongoDoSend st1 env p m 1
      else
        mongoDoSend st env p m 0
where
  /-- The three-way reply of `GET /qr` after the optional init
  (`src/api/index.js` lines 175-193). -/
  mongoQrReply (st : MongoState) (c : Nat) : HandlerResult MongoState :=
    match st.qrCodeData with
    | some q =>
        { resp := jresp 200 [("success", JVal.jBool true), ("qr", JVal.jStr q),
                             ("message", JVal.jStr "Scan this QR code with WhatsApp")],
          st := st, sends := 0, connects := c }
    | none =>
        if st.isConnected then
          { resp := jresp 200 [("success", JVal.jBool false),
                               ("message", JVal.jStr "Already connected"),
                               ("connected", JVal.jBool true)],
            st := st, sends := 0, connects := c }
        else
          { resp := jresp 200 [("success", JVal.jBool false),
                               ("message", JVal.jStr "QR not available yet, please wait..."),
                               ("connected", JVal.jBool false)],
            st := st, sends := 0, connects := c }
  /-- The registered-recipient check and the dispatch of the message
  (`src/api/index.js` lines 231-253). -/
  mongoDoSend (st : MongoState) (env : MongoEnv) (p _m : List Char) (c : Nat) :
      HandlerResult MongoState :=
    if env.recipientExists then
      { resp := jresp 200 [("success", JVal.jBool true),
                           ("message", JVal.jStr "Message sent successfully"),
                           ("to", JVal.jStr (String.mk (formatPhoneNumber p))),
                           ("messageId", JVal.jStr env.messageId),
                           ("timestamp", JVal.jStr env.timestamp)],
        st := st, sends := 1, connects := c }
    else
      { resp := jresp 404 [("success", JVal.jBool false),
                           ("error", JVal.jStr "Phone number not registered on WhatsApp"),
                           ("phone", JVal.jStr (String.mk (formatPhoneNumber p)))],
        st := st, sends := 0, connects := c }

/- ## The Express variant: route handlers -/

/-- A request routed by the Express variant. -/
inductive ExpressReq where
  | status
  | qr
  | health
  | send (phone msg : List Char)
  | clearAuth
deriving DecidableEq

/-- Behaviour of the external collaborators during one Express request. -/
structure ExpressEnv where
  recipientExists : Bool
  messageId : String
  deleteFails : Bool
  uptime : Nat
  timestamp : String
  hintHost : String
  errMsg : String
deriving DecidableEq

/-- The Express variant's routes (`src/api/index.js` lines 927-1054):
`POST /clear-auth`, `GET /qr`, `POST /send-message`, `GET /status`,
`GET /health`. -/
def expressHandler (st : ExpressState) (req : ExpressReq) (env : ExpressEnv) :
    HandlerResult ExpressState :=
  match req with
  | ExpressReq.status =>
      { resp := jresp 200 (expressStatusBody st env.uptime env.timestamp),
        st := st, sends := 0, connects := 0 }
  | ExpressReq.health =>
      { resp := jresp 200 [("status", JVal.jStr "ok"),
                           ("service", JVal.jStr "whatsapp-bot"),
                           ("connected", JVal.jBool st.isConnected),
                           ("timestamp", JVal.jStr env.timestamp)],
        st := st, sends := 0, connects := 0 }
  | ExpressReq.qr =>
      match st.currentQR with
      | some q =>
          { resp := jresp 200 [("success", JVal.jBool true), ("qr", JVal.jStr q),
                               ("message", JVal.jStr "Scan this QR code with WhatsApp"),
                               ("length", JVal.jNat q.length)],
            st := st, sends := 0, connects := 0 }
      | none =>
          { resp := jresp 200 [("success", JVal.jBool false),
                               ("message", JVal.jStr (if st.isConnected then "Already connected" else "QR not available yet")),
                               ("connected", JVal.jBool st.isConnected)],
            st := st, sends := 0, connects := 0 }
  | ExpressReq.send p m =>
      if p = [] ∨ m = [] then
        { resp := jresp 400 [("success", JVal.jBool false),
                             ("error", JVal.jStr "Phone and message are required")],
          st := st, sends := 0, connects := 0 }
      else if st.isConnected = false ∨ st.sock = none then
        { resp := jresp 503 [("success", JVal.jBool false),
                             ("error", JVal.jStr "WhatsApp bot is not connected"),
                             ("hint", JVal.jStr env.hintHost)],
          st := st, sends := 0, connects := 0 }
      else if env.recipientExists then
        { resp := jresp 200 [("success", JVal.jBool true),
                             ("message", JVal.jStr "Message sent successfully"),
                             ("to", JVal.jStr (String.mk (formatPhoneNumber p))),
                             ("messageId", JVal.jStr env.messageId),
                             ("timestamp", JVal.jStr env.timestamp)],
          st := st, sends := 1, connects := 0 }
      else
        { resp := jresp 404 [("success", JVal.jBool false),
                             ("error", JVal.jStr "Phone number not registered on WhatsApp"),
                             ("phone", JVal.jStr (String.mk (formatPhoneNumber p)))],
          st := st, sends := 0, connects := 0 }
  | ExpressReq.clearAuth =>
      if env.deleteFails then
        { resp := jresp 500 [("success", JVal.jBool false), ("error", JVal.jStr env.errMsg)],
          st := st, sends := 0, connects := 0 }
      else
        { resp := jresp 200 [("success", JVal.jBool true),
                             ("message", JVal.jStr "Auth cleared. Reconnecting...")],
          st := { sock := none, qrGenerated := false, currentQR := none,
                  isConnected := false, connectionAttempts := 0, authFiles := [] },
          sends := 0, connects := 1 }

/- ## Concrete fixtures for witnesses and counterexamples -/

def tenv0 : TmpEnv :=
  { connectOut := ConnectOutcome.timedOut, recipientExists := true,
    messageId := "3EB0A11C", deleteFails := false,
    timestamp := "2026-01-01T00:00:00.000Z", errMsg := "boom" }

def tenvFail : TmpEnv :=
  { connectOut := ConnectOutcome.timedOut, recipientExists := true,
    messageId := "3EB0A11D", deleteFails := true,
    timestamp := "2026-01-01T00:00:00.000Z", errMsg := "EACCES: permission denied" }

def eenv0 : ExpressEnv :=
  { recipientExists := true, messageId := "3EB0A11E", deleteFails := false,
    uptime := 12, timestamp := "2026-01-01T00:00:00.000Z",
    hintHost := "Please scan QR code first at http://localhost:3000", errMsg := "boom" }

def menv0 : MongoEnv :=
  { initThrows := false, opensDuringInit := false, qrDuringInit := none,
    initSock := { userId := none, userName := none }, recipientExists := true,
    messageId := "3EB0A11F", timestamp := "2026-01-01T00:00:00.000Z", errMsg := "boom" }

/-- A MongoDB-variant state holding a live session and two stored
Credential Records. -/
def mongoConnectedSt : MongoState :=
  { sock := some { userId := some "6281234:5@s.whatsapp.net", userName := some "Bot" },
    qrCodeData := none, isConnected := true,
    store := [("creds", "blob0"), ("pre-key-1", "blob1")] }

/-- An Express-variant state whose retry counter has reached the maximum. -/
def expressExhaustedSt : ExpressState :=
  { sock := some { userId := some "6281234:5@s.whatsapp.net", userName := none },
    qrGenerated := false, currentQR := none, isConnected := false,
    connectionAttempts := 3, authFiles := ["creds.json", "pre-key-1.json"] }

/-- An Express-variant state with a live session and stored credentials. -/
def expressConnSt : ExpressState :=
  { sock := some { userId := some "6281234:5@s.whatsapp.net", userName := some "Bot" },
    qrGenerated := false, currentQR := none, isConnected := true,
    connectionAttempts := 1, authFiles := ["creds.json"] }

/-- A `/tmp`-variant state with a live session and stored credentials. -/
def tmpConnSt : TmpState :=
  { sock := some { userId := some "6281234:5@s.whatsapp.net", userName := some "Bot" },
    qrCode := none, isConnected := true, lastActivity := 50, authFiles := ["creds.json"] }

/-- A `/tmp`-variant state with a live session that has been idle since
`lastActivity = 0`. -/
def tmpIdleSt : TmpState :=
  { sock := some { userId := some "628999:7@s.whatsapp.net", userName := some "Warranty Bot" },
    qrCode := none, isConnected := true, lastActivity := 0, authFiles := ["creds.json"] }

/- ## Claim theorems -/

/-- C4: normalization strips all non-digit characters; a leading `0` is
replaced by `62`; if the digits do not start with `62`, `62` is prepended;
otherwise the digits are unchanged.  In particular for any destination
string whose digits begin with the local-trunk digit `0`, the result is the
country code followed by the remaining digits. -/
theorem c4_formatPhoneNumber_spec (s : List Char) :
    (strStarts (s.filter (fun c => c.isDigit)) ['0'] = true →
      formatPhoneNumber s = ['6', '2'] ++ (s.filter (fun c => c.isDigit)).drop 1)
    ∧ (strStarts (s.filter (fun c => c.isDigit)) ['0'] = false →
        strStarts (s.filter (fun c => c.isDigit)) ['6', '2'] = false →
        formatPhoneNumber s = ['6', '2'] ++ s.filter (fun c => c.isDigit))
    ∧ (strStarts (s.filter (fun c => c.isDigit)) ['0'] = false →
        strStarts (s.filter (fun c => c.isDigit)) ['6', '2'] = true →
        formatPhoneNumber s = s.filter (fun c => c.isDigit)) := by
  refine ⟨?_, ?_, ?_⟩
  · intro h0
    simp [formatPhoneNumber, h0]
  · intro h0 h62
    simp [formatPhoneNumber, h0, h62]
  · intro h0 h62
    simp [formatPhoneNumber, h0, h62]

/-- Witness for C4: `"081234567890"` normalizes to `"62"` followed by the
digits after the leading `0`. -/
theorem c4_formatPhoneNumber_spec_witness :
    formatPhoneNumber ['0', '8', '1', '2', '3', '4', '5', '6', '7', '8', '9', '0']
      = ['6', '2'] ++ ((['0', '8', '1', '2', '3', '4', '5', '6', '7', '8', '9', '0']).filter
          (fun c => c.isDigit)).drop 1 :=
  (c4_formatPhoneNumber_spec ['0', '8', '1', '2', '3', '4', '5', '6', '7', '8', '9', '0']).1
    (by decide)

/-- C9: for every input, `formatPhoneNumber` returns digits only, the result
begins with `62`, and the function is idempotent. -/
theorem c9_formatPhoneNumber_digits_idem (s : List Char) :
    (formatPhoneNumber s).all (fun c => c.isDigit) = true
    ∧ strStarts (formatPhoneNumber s) ['6', '2'] = true
    ∧ formatPhoneNumber (formatPhoneNumber s) = formatPhoneNumber s :=
  ⟨formatPhoneNumber_all_digits s, formatPhoneNumber_starts_62 s, formatPhoneNumber_idem s⟩

/-- C2 counterexample: in the MongoDB variant a logged-out close leaves the
stored Credential Records untouched — refuting the claim that every variant
wipes them. -/
theorem c2_mongo_logout_keeps_credentials :
    (mongoOnClose mongoConnectedSt (some DisconnectReason.loggedOut)).st.store
        = [("creds", "blob0"), ("pre-key-1", "blob1")]
    ∧ (mongoOnClose mongoConnectedSt (some DisconnectReason.loggedOut)).st.store ≠ [] := by
  constructor
  · rfl
  · decide

/-- C2 (amended): on a logged-out close the Express and `/tmp` variants
delete all Credential Records and schedule no reconnect, and with an empty
store the next connection starts a fresh pairing flow (spec-modelled); the
MongoDB variant schedules no reconnect either but leaves its Credential
Records in place. -/
theorem c2_logout_close_amended (est : ExpressState) (tst : TmpState)
    (mst : MongoState) (q : String) :
    ((expressOnClose est (some DisconnectReason.loggedOut)).st.authFiles = []
      ∧ (expressOnClose est (some DisconnectReason.loggedOut)).st.isConnected = false
      ∧ (expressOnClose est (some DisconnectReason.loggedOut)).reconnectDelays = [])
    ∧ ((tmpOnClose tst (some DisconnectReason.loggedOut)).st.authFiles = []
      ∧ (tmpOnClose tst (some DisconnectReason.loggedOut)).st.isConnected = false
      ∧ (tmpOnClose tst (some DisconnectReason.loggedOut)).reconnectDelays = [])
    ∧ ((mongoOnClose mst (some DisconnectReason.loggedOut)).st.store = mst.store
      ∧ (mongoOnClose mst (some DisconnectReason.loggedOut)).st.isConnected = false
      ∧ (mongoOnClose mst (some DisconnectReason.loggedOut)).reconnectDelays = [])
    ∧ ensureConnectedOutcome [] q = some q := by
  refine ⟨⟨?_, ?_, ?_⟩, ⟨?_, ?_, ?_⟩, ⟨?_, ?_, ?_⟩, ?_⟩ <;>
    simp [expressOnClose, tmpOnClose, mongoOnClose, ensureConnectedOutcome]

/-- Below the retry bound, the close handler wipes nothing. -/
theorem expressOnClose_backoff_no_wipe (st : ExpressState) (sc : Option Nat)
    (h : sc ≠ some DisconnectReason.loggedOut)
    (hlt : st.connectionAttempts < MAX_RETRY_ATTEMPTS) :
    (expressOnClose st sc).wipes = 0
    ∧ (expressOnClose st sc).st.authFiles = st.authFiles := by
  constructor <;> simp [expressOnClose, h, hlt]

/-- C3: when a non-logout close finds the retry counter at the maximum, the
handler performs exactly one credential wipe and schedules exactly one fresh
reconnect; the counter is reset, so the immediately following attempt's
close event takes the backoff branch and performs no wipe — the
wipe-and-retry step does not repeat back to back. -/
theorem c3_wipe_then_single_retry (st : ExpressState) (sc : Option Nat)
    (h1 : sc ≠ some DisconnectReason.loggedOut)
    (h2 : MAX_RETRY_ATTEMPTS ≤ st.connectionAttempts) :
    (expressOnClose st sc).wipes = 1
    ∧ (expressOnClose st sc).reconnectDelays = [5000]
    ∧ (expressOnClose st sc).st.authFiles = []
    ∧ (expressOnClose st sc).st.connectionAttempts = 0
    ∧ (∀ sc2, sc2 ≠ some DisconnectReason.loggedOut →
        (expressOnClose (expressConnectAttempt (expressOnClose st sc).st) sc2).wipes = 0
        ∧ (expressOnClose (expressConnectAttempt (expressOnClose st sc).st) sc2).st.authFiles
            = (expressConnectAttempt (expressOnClose st sc).st).authFiles) := by
  have hlt : ¬ st.connectionAttempts < MAX_RETRY_ATTEMPTS := Nat.not_lt.mpr h2
  have h4 : (expressOnClose st sc).st.connectionAttempts = 0 := by
    simp [expressOnClose, h1, hlt]
  refine ⟨?_, ?_, ?_, h4, ?_⟩
  · simp [expressOnClose, h1, hlt]
  · simp [expressOnClose, h1, hlt]
  · simp [expressOnClose, h1, hlt]
  · intro sc2 hsc2
    exact expressOnClose_backoff_no_wipe _ sc2 hsc2
      (by simp [expressConnectAttempt, h4, MAX_RETRY_ATTEMPTS])

/-- Witness for C3: a concrete exhausted state closed with status code 428
(connection closed) wipes once and schedules exactly one reconnect. -/
theorem c3_wipe_then_single_retry_witness :
    (expressOnClose expressExhaustedSt (some 428)).wipes = 1
    ∧ (expressOnClose expressExhaustedSt (some 428)).reconnectDelays = [5000] := by
  have h := c3_wipe_then_single_retry expressExhaustedSt (some 428) (by decide) (by decide)
  exact ⟨h.1, h.2.1⟩

/- ## keepAlive helper lemmas -/

theorem keepAlive_preserves_fields (now : Nat) (st : TmpState) :
    (keepAlive now st).authFiles = st.authFiles
    ∧ (keepAlive now st).lastActivity = st.lastActivity
    ∧ (keepAlive now st).qrCode = st.qrCode := by
  unfold keepAlive
  split
  · split <;> simp
  · simp

theorem keepAlive_of_recent (now : Nat) (st : TmpState)
    (h : now - st.lastActivity ≤ CONNECTION_TIMEOUT) : keepAlive now st = st := by
  unfold keepAlive
  split
  · rw [if_neg (Nat.not_lt.mpr h)]
  · rfl

theorem keepAlive_of_disconnected (now : Nat) (st : TmpState)
    (h : st.isConnected = false) : keepAlive now st = st := by
  unfold keepAlive
  rw [if_neg]
  intro hc
  rw [h] at hc
  exact Bool.false_ne_true hc.2

/- ## C1 -/

/-- C1: in all three variants, a send request arriving while the connection
state is Disconnected (and, in the MongoDB variant, whose inline reconnect
attempt neither throws nor brings the connection up within the request)
returns HTTP 503 with `success:false` and a not-connected error, and no
`sendMessage` call is ever made against the protocol layer. -/
theorem c1_send_while_disconnected (now : Nat) (tst : TmpState) (est : ExpressState)
    (mst : MongoState) (tenv : TmpEnv) (eenv : ExpressEnv) (menv : MongoEnv)
    (p m : List Char) (hp : p ≠ []) (hm : m ≠ [])
    (ht : tst.isConnected = false) (he : est.isConnected = false)
    (hmc : mst.isConnected = false)
    (hnt : menv.initThrows = false) (hno : menv.opensDuringInit = false) :
    ((tmpHandler now tst (TmpReq.send p m) tenv).resp.status = 503
      ∧ List.lookup "success" (tmpHandler now tst (TmpReq.send p m) tenv).resp.body
          = some (JVal.jBool false)
      ∧ List.lookup "error" (tmpHandler now tst (TmpReq.send p m) tenv).resp.body
          = some (JVal.jStr "Bot not connected. Get QR code at /api/qr")
      ∧ (tmpHandler now tst (TmpReq.send p m) tenv).sends = 0)
    ∧ ((expressHandler est (ExpressReq.send p m) eenv).resp.status = 503
      ∧ List.lookup "success" (expressHandler est (ExpressReq.send p m) eenv).resp.body
          = some (JVal.jBool false)
      ∧ List.lookup "error" (expressHandler est (ExpressReq.send p m) eenv).resp.body
          = some (JVal.jStr "WhatsApp bot is not connected")
      ∧ (expressHandler est (ExpressReq.send p m) eenv).sends = 0)
    ∧ ((mongoHandler mst (MongoReq.send p m) menv).resp.status = 503
      ∧ List.lookup "success" (mongoHandler mst (MongoReq.send p m) menv).resp.body
          = some (JVal.jBool false)
      ∧ List.lookup "error" (mongoHandler mst (MongoReq.send p m) menv).resp.body
          = some (JVal.jStr "WhatsApp bot is not connected")
      ∧ (mongoHandler mst (MongoReq.send p m) menv).sends = 0) := by
  have hka := keepAlive_of_disconnected now tst ht
  have hinit : (initWhatsApp mst menv).isConnected = false := by
    unfold initWhatsApp
    rw [if_neg (by simp [hmc])]
    cases menv.qrDuringInit <;> simp [hno, hmc]
  refine ⟨?_, ?_, ?_⟩
  · simp [tmpHandler, hka, ht, hp, hm, jresp, List.lookup]
  · simp [expressHandler, he, hp, hm, jresp, List.lookup]
  · simp [mongoHandler, hmc, hp, hm, hnt, hinit, jresp, List.lookup]

/-- Witness for C1: the three initial states reject a concrete send with
503 in every variant. -/
theorem c1_send_while_disconnected_witness :
    (tmpHandler 0 (tmpInit 0) (TmpReq.send ['0', '8', '1'] ['h', 'i']) tenv0).resp.status = 503
    ∧ (expressHandler expressInit (ExpressReq.send ['0', '8', '1'] ['h', 'i']) eenv0).resp.status = 503
    ∧ (mongoHandler mongoInit (MongoReq.send ['0', '8', '1'] ['h', 'i']) menv0).resp.status = 503 := by
  have h := c1_send_while_disconnected 0 (tmpInit 0) expressInit mongoInit tenv0 eenv0 menv0
    ['0', '8', '1'] ['h', 'i'] (by decide) (by decide) rfl rfl rfl rfl rfl
  exact ⟨h.1.1, h.2.1.1, h.2.2.1⟩

/- ## C6 -/

/-- C6 counterexample: the MongoDB variant's status response has no
`connected` field at all, so the untouched initial state does not return
`connected:false` there. -/
theorem c6_mongo_status_lacks_connected :
    List.lookup "connected" (mongoHandler mongoInit MongoReq.status menv0).resp.body = none
    ∧ List.lookup "connected" (mongoHandler mongoInit MongoReq.status menv0).resp.body
        ≠ some (JVal.jBool false) := by
  constructor
  · rfl
  · decide

/-- C6 (amended): before any connection attempt, the `/tmp` and Express
variants report `connected:false`, `qrAvailable:false`, `botNumber:null`;
the MongoDB variant reports `qrAvailable:false` and `botNumber:null` but
carries a `status:"disconnected"` string instead of a `connected` field. -/
theorem c6_initial_status_fields (menv : MongoEnv) (eenv : ExpressEnv) (tenv : TmpEnv)
    (startTime now : Nat) :
    (List.lookup "connected" (mongoHandler mongoInit MongoReq.status menv).resp.body = none
      ∧ List.lookup "status" (mongoHandler mongoInit MongoReq.status menv).resp.body
          = some (JVal.jStr "disconnected")
      ∧ List.lookup "qrAvailable" (mongoHandler mongoInit MongoReq.status menv).resp.body
          = some (JVal.jBool false)
      ∧ List.lookup "botNumber" (mongoHandler mongoInit MongoReq.status menv).resp.body
          = some JVal.jNull)
    ∧ (List.lookup "connected" (tmpHandler now (tmpInit startTime) TmpReq.status tenv).resp.body
          = some (JVal.jBool false)
      ∧ List.lookup "qrAvailable" (tmpHandler now (tmpInit startTime) TmpReq.status tenv).resp.body
          = some (JVal.jBool false)
      ∧ List.lookup "botNumber" (tmpHandler now (tmpInit startTime) TmpReq.status tenv).resp.body
          = some JVal.jNull)
    ∧ (List.lookup "connected" (expressHandler expressInit ExpressReq.status eenv).resp.body
          = some (JVal.jBool false)
      ∧ List.lookup "qrAvailable" (expressHandler expressInit ExpressReq.status eenv).resp.body
          = some (JVal.jBool false)
      ∧ List.lookup "botNumber" (expressHandler expressInit ExpressReq.status eenv).resp.body
          = some JVal.jNull) := by
  have hka : keepAlive now (tmpInit startTime) = tmpInit startTime :=
    keepAlive_of_disconnected now (tmpInit startTime) rfl
  refine ⟨?_, ?_, ?_⟩
  · simp [mongoHandler, mongoStatusBody, mongoInit, botNumberOf, jresp, List.lookup]
  · have h1 : tmpHandler now (tmpInit startTime) TmpReq.status tenv
        = { resp := jresp 200 (tmpStatusBody (tmpInit startTime) tenv.timestamp),
            st := tmpInit startTime, sends := 0, connects := 0 } := by
      simp [tmpHandler, hka]
    rw [h1]
    simp [tmpStatusBody, tmpInit, botNumberOf, jresp, List.lookup]
  · simp [expressHandler, expressStatusBody, expressInit, botNumberOf, botNameOf, jresp,
      List.lookup]

/- ## C7 -/

/-- C7 counterexample: in the `/tmp` variant a bare status request mutates
the shared session state — the pre-routing `keepAlive` tears down an idle
session, nulling the handle and clearing the connected flag. -/
theorem c7_status_request_mutates_state :
    (tmpHandler 300001 tmpIdleSt TmpReq.status tenv0).st ≠ tmpIdleSt
    ∧ (tmpHandler 300001 tmpIdleSt TmpReq.status tenv0).st.sock = none
    ∧ (tmpHandler 300001 tmpIdleSt TmpReq.status tenv0).st.isConnected = false := by
  decide

/-- C7 (amended): the MongoDB and Express status routes never initiate a
connection, never send, and leave the state unchanged; the `/tmp` status
route never initiates a connection or sends and preserves the credential
files, `lastActivity` and the pairing artifact, but the pre-routing
`keepAlive` may tear down an idle session — the state is unchanged only
when the session is not idle-expired. -/
theorem c7_status_read_only (mst : MongoState) (menv : MongoEnv)
    (est : ExpressState) (eenv : ExpressEnv) (now : Nat) (tst : TmpState) (tenv : TmpEnv) :
    ((mongoHandler mst MongoReq.status menv).st = mst
      ∧ (mongoHandler mst MongoReq.status menv).connects = 0
      ∧ (mongoHandler mst MongoReq.status menv).sends = 0)
    ∧ ((expressHandler est ExpressReq.status eenv).st = est
      ∧ (expressHandler est ExpressReq.status eenv).connects = 0
      ∧ (expressHandler est ExpressReq.status eenv).sends = 0)
    ∧ ((tmpHandler now tst TmpReq.status tenv).connects = 0
      ∧ (tmpHandler now tst TmpReq.status tenv).sends = 0
      ∧ (tmpHandler now tst TmpReq.status tenv).st.authFiles = tst.authFiles
      ∧ (tmpHandler now tst TmpReq.status tenv).st.lastActivity = tst.lastActivity
      ∧ (tmpHandler now tst TmpReq.status tenv).st.qrCode = tst.qrCode
      ∧ (now - tst.lastActivity ≤ CONNECTION_TIMEOUT →
          (tmpHandler now tst TmpReq.status tenv).st = tst)) := by
  have hf := keepAlive_preserves_fields now tst
  refine ⟨⟨rfl, rfl, rfl⟩, ⟨rfl, rfl, rfl⟩, rfl, rfl, hf.1, hf.2.1, hf.2.2, ?_⟩
  intro h
  show keepAlive now tst = tst
  exact keepAlive_of_recent now tst h

/-- Witness for C7: a status request within the inactivity window leaves
the `/tmp` state untouched. -/
theorem c7_status_read_only_witness :
    (tmpHandler 5 (tmpInit 0) TmpReq.status tenv0).st = tmpInit 0 :=
  (c7_status_read_only mongoInit menv0 expressInit eenv0 5 (tmpInit 0) tenv0).2.2.2.2.2.2.2
    (by decide)

/- ## C5 -/

/-- C5: after a successful clear (`POST /clear-auth` in the Express variant,
`POST /api/clear` in the `/tmp` variant) the session handle is null, all
Credential Records are deleted, the retry counter (Express) is reset to
zero, the pairing artifact is discarded, and a subsequent status read
reports `connected:false`. -/
theorem c5_clear_resets_everything (est : ExpressState) (eenv : ExpressEnv)
    (now now2 : Nat) (tst : TmpState) (tenv : TmpEnv)
    (he : eenv.deleteFails = false) (ht : tenv.deleteFails = false) :
    ((expressHandler est ExpressReq.clearAuth eenv).resp.status = 200
    ∧ List.lookup "success" (expressHandler est ExpressReq.clearAuth eenv).resp.body
        = some (JVal.jBool true)
    ∧ (expressHandler est ExpressReq.clearAuth eenv).st.sock = none
    ∧ (expressHandler est ExpressReq.clearAuth eenv).st.authFiles = []
    ∧ (expressHandler est ExpressReq.clearAuth eenv).st.connectionAttempts = 0
    ∧ (expressHandler est ExpressReq.clearAuth eenv).st.currentQR = none
    ∧ (expressHandler est ExpressReq.clearAuth eenv).st.qrGenerated = false
    ∧ (expressHandler est ExpressReq.clearAuth eenv).st.isConnected = false
    ∧ List.lookup "connected"
        (expressHandler (expressHandler est ExpressReq.clearAuth eenv).st
          ExpressReq.status eenv).resp.body
        = some (JVal.jBool false))
    ∧ ((tmpHandler now tst TmpReq.clear tenv).resp.status = 200
    ∧ List.lookup "success" (tmpHandler now tst TmpReq.clear tenv).resp.body
        = some (JVal.jBool true)
    ∧ (tmpHandler now tst TmpReq.clear tenv).st.sock = none
    ∧ (tmpHandler now tst TmpReq.clear tenv).st.isConnected = false
    ∧ (tmpHandler now tst TmpReq.clear tenv).st.qrCode = none
    ∧ (tmpHandler now tst TmpReq.clear tenv).st.authFiles = []
    ∧ List.lookup "connected"
        (tmpHandler now2 (tmpHandler now tst TmpReq.clear tenv).st
          TmpReq.status tenv).resp.body
        = some (JVal.jBool false)) := by
  have hlook : ∀ st2 : TmpState, st2.isConnected = false →
      List.lookup "connected" (tmpHandler now2 st2 TmpReq.status tenv).resp.body
        = some (JVal.jBool false) := by
    intro st2 h2
    have h3 := keepAlive_of_disconnected now2 st2 h2
    simp [tmpHandler, h3, tmpStatusBody, h2, jresp, List.lookup]
  have h2 : (tmpHandler now tst TmpReq.clear tenv).st.isConnected = false := by
    simp [tmpHandler, ht, jresp]
  refine ⟨?_, ?_, ?_, ?_, ?_, ?_, ?_, hlook _ h2⟩
  · constructor
    · simp [expressHandler, he, jresp]
    constructor
    · simp [expressHandler, he, jresp, List.lookup]
    refine ⟨by simp [expressHandler, he, jresp], by simp [expressHandler, he, jresp],
      by simp [expressHandler, he, jresp], by simp [expressHandler, he, jresp],
      by simp [expressHandler, he, jresp], by simp [expressHandler, he, jresp], ?_⟩
    simp [expressHandler, he, jresp, expressStatusBody, List.lookup]
  · simp [tmpHandler, ht, jresp]
  · simp [tmpHandler, ht, jresp, List.lookup]
  · simp [tmpHandler, ht, jresp]
  · exact h2
  · simp [tmpHandler, ht, jresp]
  · simp [tmpHandler, ht, jresp]

/-- Witness for C5: clearing a concrete connected state nulls the Express
session handle, and the status read after the `/tmp` clear reports
`connected:false`. -/
theorem c5_clear_resets_everything_witness :
    (expressHandler expressConnSt ExpressReq.clearAuth eenv0).st.sock = none
    ∧ List.lookup "connected"
        (tmpHandler 60 (tmpHandler 55 tmpConnSt TmpReq.clear tenv0).st
          TmpReq.status tenv0).resp.body
        = some (JVal.jBool false) := by
  have h := c5_clear_resets_everything expressConnSt eenv0 55 60 tmpConnSt tenv0 rfl rfl
  exact ⟨h.1.2.2.1, h.2.2.2.2.2.2.2⟩

/- ## C8 -/

/-- C8 counterexample: after the idle teardown, the next send request fails
with 503 and initiates no reconnect — it does not transparently reconnect. -/
theorem c8_send_after_idle_fails :
    (tmpHandler 300001 tmpIdleSt (TmpReq.send ['0', '8', '1'] ['h', 'i']) tenv0).resp.status = 503
    ∧ (tmpHandler 300001 tmpIdleSt (TmpReq.send ['0', '8', '1'] ['h', 'i']) tenv0).connects = 0
    ∧ (tmpHandler 300001 tmpIdleSt (TmpReq.send ['0', '8', '1'] ['h', 'i']) tenv0).sends = 0 := by
  decide

/-- C8 (amended): when a request arrives after more than the 5-minute
inactivity window, `keepAlive` tears down the connected session (handle
nulled, connected flag cleared); a subsequent send request in that same
situation then fails with 503 and initiates no reconnection — only the
`/api/qr` and `/api/connect` routes reconnect. -/
theorem c8_idle_teardown_then_send_fails (now : Nat) (tst : TmpState) (tenv : TmpEnv)
    (p m : List Char) (hp : p ≠ []) (hm : m ≠ [])
    (hs : tst.sock ≠ none) (hc : tst.isConnected = true)
    (hidle : now - tst.lastActivity > CONNECTION_TIMEOUT) :
    (keepAlive now tst).sock = none
    ∧ (keepAlive now tst).isConnected = false
    ∧ (tmpHandler now tst (TmpReq.send p m) tenv).resp.status = 503
    ∧ List.lookup "success" (tmpHandler now tst (TmpReq.send p m) tenv).resp.body
        = some (JVal.jBool false)
    ∧ (tmpHandler now tst (TmpReq.send p m) tenv).connects = 0
    ∧ (tmpHandler now tst (TmpReq.send p m) tenv).sends = 0 := by
  have hka : keepAlive now tst = { tst with sock := none, isConnected := false } := by
    unfold keepAlive
    rw [if_pos ⟨hs, hc⟩, if_pos hidle]
  refine ⟨by rw [hka], by rw [hka], ?_, ?_, ?_, ?_⟩ <;>
    simp [tmpHandler, hka, hp, hm, jresp, List.lookup]

/-- Witness for C8: the concrete idle state is torn down and the send that
follows is rejected. -/
theorem c8_idle_teardown_then_send_fails_witness :
    (keepAlive 300001 tmpIdleSt).sock = none
    ∧ (tmpHandler 300001 tmpIdleSt (TmpReq.send ['0', '8'] ['h', 'i']) tenv0).resp.status = 503 := by
  have h := c8_idle_teardown_then_send_fails 300001 tmpIdleSt tenv0 ['0', '8'] ['h', 'i']
    (by decide) (by decide) (by decide) rfl (by decide)
  exact ⟨h.1, h.2.2.1⟩

/- ## C10 -/

/-- C10: in the `/tmp` variant, when the credential-file deletion of
`/api/clear` fails the endpoint responds 500 with `success:false`, yet the
in-memory session state has already been reset (handle nulled, connected
flag cleared, pairing artifact discarded) while the credential files are
still in place. -/
theorem c10_clear_error_not_atomic (now : Nat) (tst : TmpState) (tenv : TmpEnv)
    (h : tenv.deleteFails = true) :
    (tmpHandler now tst TmpReq.clear tenv).resp.status = 500
    ∧ List.lookup "success" (tmpHandler now tst TmpReq.clear tenv).resp.body
        = some (JVal.jBool false)
    ∧ (tmpHandler now tst TmpReq.clear tenv).st.sock = none
    ∧ (tmpHandler now tst TmpReq.clear tenv).st.isConnected = false
    ∧ (tmpHandler now tst TmpReq.clear tenv).st.qrCode = none
    ∧ (tmpHandler now tst TmpReq.clear tenv).st.authFiles = tst.authFiles := by
  have hf := (keepAlive_preserves_fields now tst).1
  refine ⟨?_, ?_, ?_, ?_, ?_, ?_⟩ <;> simp [tmpHandler, h, jresp, List.lookup, hf]

/-- Witness for C10: a failing deletion on a concrete connected state
leaves the credential file behind while the session is already reset. -/
theorem c10_clear_error_not_atomic_witness :
    (tmpHandler 10 tmpIdleSt TmpReq.clear tenvFail).resp.status = 500
    ∧ (tmpHandler 10 tmpIdleSt TmpReq.clear tenvFail).st.sock = none
    ∧ (tmpHandler 10 tmpIdleSt TmpReq.clear tenvFail).st.authFiles = ["creds.json"] := by
  have h := c10_clear_error_not_atomic 10 tmpIdleSt tenvFail rfl
  exact ⟨h.1, h.2.2.1, h.2.2.2.2.2.trans rfl⟩

end WBot
